import Mathlib

/-!
Shallow embedding of the FreeCAD-DiffViewer repository: the two macro
variants `src/step_diff.py` and `src/beta_diff.py`.

Modelling conventions:
- A FreeCAD `Part.Shape` is modelled by `Shape`: its reported `Volume`
  (a float in the source, modelled exactly as a rational), `isValid()`,
  `isNull()`, its `ShapeType` string, its `Solids` list, and an `addr`
  field standing for the Python object identity (two distinct live
  objects have distinct addresses; `Shape.copy` models `Part.Shape.copy()`,
  which allocates a new object with the same geometric data).
- The external geometry kernel's fallible primitives (`fuse`, `common`,
  `cut`, `removeSplitter`) are an injected `Kernel` of functions returning
  `Except String Shape`: `.error msg` models the call raising a Python
  exception with that message.  A Python function that may raise is
  embedded with result type `Except String _`; one that catches every
  exception is total on the `.ok` side.
- Python truthiness of a `Part.Shape` (`if shape:`) is `!shape.isnull`,
  and of an optional shape it is `none`-or-null falsy (`falsyShape`).
- GUI work, logging and `print` calls are side effects with no bearing on
  the claims and are elided; document creation (`App.newDocument`) is
  tracked by the `Bool` component of each `main` model, since claims
  speak about whether an output artifact exists when a run aborts.
-/

inductive Shape : Type where
  | mk (shapeType : String) (volume : ℚ) (valid : Bool) (isnull : Bool)
       (addr : Nat) (solids : List Shape)

namespace Shape

def shapeType : Shape → String
  | mk t _ _ _ _ _ => t

def volume : Shape → ℚ
  | mk _ v _ _ _ _ => v

def valid : Shape → Bool
  | mk _ _ b _ _ _ => b

def isnull : Shape → Bool
  | mk _ _ _ b _ _ => b

def addr : Shape → Nat
  | mk _ _ _ _ a _ => a

def solids : Shape → List Shape
  | mk _ _ _ _ _ l => l

/-- `Part.Shape.copy()`: a new object (fresh identity, modelled as a
changed address) carrying the same geometric data. -/
def copy (s : Shape) : Shape :=
  mk s.shapeType s.volume s.valid s.isnull (s.addr + 1) s.solids

end Shape

/-- One entry of a FreeCAD document: an object that optionally exposes a
`Shape` attribute (`none` models `hasattr(obj, 'Shape')` being false). -/
structure DocObject : Type where
  shape : Option Shape

/-- A FreeCAD document: ordered objects plus its `Label`. -/
structure Document : Type where
  label : String
  objects : List DocObject

/-- The geometry kernel's fallible primitives, injected.  `fuse s l`
models `s.fuse(l)` (also used with a singleton list for `s.fuse(t)`). -/
structure Kernel : Type where
  fuse : Shape → List Shape → Except String Shape
  common : Shape → Shape → Except String Shape
  cut : Shape → Shape → Except String Shape
  removeSplitter : Shape → Except String Shape

/-- `TOLLERANZA_VOLUME = 1e-6`, identical in both source files. -/
def TOLLERANZA_VOLUME : ℚ := 1 / 1000000

/-- `Part.makeCompound(shapes)`: grouping of solids with no boolean
merging; total, per the kernel contract the core requires (a compound
reports the sum of its members' volumes, is non-null and valid). -/
def makeCompound (shapes : List Shape) : Shape :=
  Shape.mk "Compound" ((shapes.map Shape.volume).sum) true false 0 shapes

/-- Truthiness of an optional shape: `None` and kernel-null shapes are
falsy in Python (`if not vecchio_shape: ...`). -/
def falsyShape : Option Shape → Bool
  | none => true
  | some s => s.isnull

/-- The dict returned by `create_comparison_shapes` in both variants. -/
structure DiffShapes : Type where
  invariate : Option Shape
  aggiunte : Option Shape
  rimosse : Option Shape

/-- Classified failure of a whole run, as surfaced by `main`. -/
inductive RunError : Type where
  | config (msg : String)
  | empty (msg : String)
  | comparison (msg : String)

/-- Left fold `result = result.fuse(shape)` over the remaining shapes,
stopping at the first raising fuse call. -/
def fold_fuse (k : Kernel) (acc : Shape) : List Shape → Except String Shape
  | [] => .ok acc
  | s :: rest =>
    match k.fuse acc [s] with
    | .ok r => fold_fuse k r rest
    | .error e => .error e

namespace step_diff

/-- `get_valid_shapes` of step_diff.py (lines 27-39): an object is kept iff
it has a truthy shape that `isValid()` and whose signed `Volume` strictly
exceeds `TOLLERANZA_VOLUME` (no `abs` in this variant). -/
def get_valid_shapes (doc : Document) : List Shape :=
  doc.objects.filterMap fun obj =>
    obj.shape.bind fun s =>
      if s.isnull = false ∧ s.valid = true ∧ s.volume > TOLLERANZA_VOLUME
      then some s else none

/-- The volume-significance acceptance of step_diff.py (lines 122-126):
`shape if shape.Volume > TOLLERANZA_VOLUME else None`, on the signed
volume. -/
def significance_filter (x : Option Shape) : Option Shape :=
  match x with
  | none => none
  | some s => if s.volume > TOLLERANZA_VOLUME then some s else none

/-- `get_fused_shape` of step_diff.py (lines 41-63): zero shapes give
`None`; one shape is returned itself (no copy in this variant); more are
left-folded with `fuse` and cleaned with `removeSplitter`, and if that
raises anywhere, the fallback is an un-fused compound of all original
inputs. -/
def get_fused_shape (k : Kernel) (doc : Document) : Option Shape :=
  match get_valid_shapes doc with
  | [] => none
  | [s] => some s
  | s0 :: rest =>
    let folded : Except String Shape :=
      match fold_fuse k s0 rest with
      | .ok r => k.removeSplitter r
      | .error e => .error e
    match folded with
    | .ok result => some result
    | .error _ => some (makeCompound (s0 :: rest))

/-- `get_comparison_documents` of step_diff.py (lines 65-88): fewer than
two open documents is an error; otherwise the documents with a nonempty
`get_valid_shapes` are kept in order and the first two are returned,
fewer than two of those being an error.  (`valid_docs[0], valid_docs[1]`
is written as a match on the filtered list.) -/
def get_comparison_documents (docs : List Document) :
    Except String (Document × Document) :=
  if docs.length < 2 then
    .error "Apri almeno due documenti STEP per eseguire il confronto."
  else
    match docs.filter (fun d => !(get_valid_shapes d).isEmpty) with
    | d1 :: d2 :: _ => .ok (d1, d2)
    | _ => .error "Almeno due documenti devono contenere geometrie valide."

/-- `create_comparison_shapes` of step_diff.py (lines 105-132): three
kernel calls in sequence — `vecchio.common(nuovo)`, `nuovo.cut(vecchio)`
then `removeSplitter`, `vecchio.cut(nuovo)` then `removeSplitter` — each
result passed through the signed-volume significance filter; any raise is
re-raised (`except ...: raise`), modelled by propagating the `.error`. -/
def create_comparison_shapes (k : Kernel) (vecchio_shape nuovo_shape : Shape) :
    Except String DiffShapes :=
  match k.common vecchio_shape nuovo_shape with
  | .error e => .error e
  | .ok invariate_shape =>
    match k.cut nuovo_shape vecchio_shape with
    | .error e => .error e
    | .ok aggiunte0 =>
      match k.removeSplitter aggiunte0 with
      | .error e => .error e
      | .ok aggiunte_shape =>
        match k.cut vecchio_shape nuovo_shape with
        | .error e => .error e
        | .ok rimosse0 =>
          match k.removeSplitter rimosse0 with
          | .error e => .error e
          | .ok rimosse_shape =>
            .ok { invariate := significance_filter (some invariate_shape)
                , aggiunte := significance_filter (some aggiunte_shape)
                , rimosse := significance_filter (some rimosse_shape) }

/-- The `volumi` report dict of step_diff.py main (lines 172-177): the raw
`Volume` of each present category, `0` for an absent one. -/
def volumi (shapes : DiffShapes) : ℚ × ℚ × ℚ :=
  ( match shapes.invariate with | some s => s.volume | none => 0
  , match shapes.aggiunte with | some s => s.volume | none => 0
  , match shapes.rimosse with | some s => s.volume | none => 0 )

/-- The net change printed by step_diff.py main (line 184):
`volumi['aggiunte'] - volumi['rimosse']`. -/
def variazione_netta (shapes : DiffShapes) : ℚ :=
  (volumi shapes).2.1 - (volumi shapes).2.2

/-- `main` of step_diff.py (lines 90-192), up to the diff computation: the
`Bool` records whether `App.newDocument` was executed (line 135), i.e.
whether an output artifact exists; the `Except` is the single failure the
surrounding `try/except` surfaces to the caller.  GUI and report printing
carry no further pipeline state and are elided. -/
def main (k : Kernel) (docs : List Document) :
    Bool × Except RunError DiffShapes :=
  match get_comparison_documents docs with
  | .error m => (false, .error (.config m))
  | .ok (doc_old, doc_new) =>
    let vecchio_shape := get_fused_shape k doc_old
    let nuovo_shape := get_fused_shape k doc_new
    match vecchio_shape, nuovo_shape with
    | some v, some n =>
      if v.isnull || n.isnull then
        (false, .error (.empty "Non sono stati trovati corpi solidi validi in uno o entrambi i documenti."))
      else
        match create_comparison_shapes k v n with
        | .ok shapes => (true, .ok shapes)
        | .error m => (true, .error (.comparison m))
    | _, _ =>
      (false, .error (.empty "Non sono stati trovati corpi solidi validi in uno o entrambi i documenti."))

end step_diff

namespace beta_diff

/-- `get_valid_shapes` of beta_diff.py (lines 28-40): as in the step
variant but the significance test is on the magnitude,
`abs(obj.Shape.Volume) > TOLLERANZA_VOLUME`. -/
def get_valid_shapes (doc : Document) : List Shape :=
  doc.objects.filterMap fun obj =>
    obj.shape.bind fun s =>
      if s.isnull = false ∧ s.valid = true ∧ |s.volume| > TOLLERANZA_VOLUME
      then some s else none

/-- The result-acceptance filter of beta_diff.py `simple_boolean_op`
(lines 142-148): a result is kept iff it is truthy, not kernel-null and
`abs(result.Volume) > TOLLERANZA_VOLUME`; truthiness of a shape is
non-nullity, so the null test appears once. -/
def significance_filter (x : Option Shape) : Option Shape :=
  match x with
  | none => none
  | some s =>
    if s.isnull = false ∧ |s.volume| > TOLLERANZA_VOLUME then some s else none

/-- `get_combined_shape` of beta_diff.py (lines 42-58): no shapes give
`None`; one shape is returned as an independent `copy()`; more form a
compound (`Part.makeCompound` is total in this model, so the source's
defensive `except` branch cannot fire). -/
def get_combined_shape (doc : Document) : Option Shape :=
  match get_valid_shapes doc with
  | [] => none
  | [s] => some s.copy
  | shapes => some (makeCompound shapes)

/-- The `has_geometry` probe of beta_diff.py (line 82):
`any(hasattr(obj, 'Shape') and obj.Shape for obj in doc.Objects)`. -/
def has_geometry (doc : Document) : Bool :=
  doc.objects.any fun obj =>
    match obj.shape with
    | some s => !s.isnull
    | none => false

/-- `get_comparison_documents` of beta_diff.py (lines 68-91): like the
step variant, with the (redundant) extra `has_geometry` check on each
kept document. -/
def get_comparison_documents (docs : List Document) :
    Except String (Document × Document) :=
  if docs.length < 2 then
    .error "Apri almeno due documenti STEP per eseguire il confronto."
  else
    match docs.filter (fun d => !(get_valid_shapes d).isEmpty && has_geometry d) with
    | d1 :: d2 :: _ => .ok (d1, d2)
    | _ => .error "Almeno due documenti devono contenere geometrie valide."

/-- The second and third fallback of `safe_fuse_compound` (beta_diff.py
lines 106-120): pairwise-fuse the compound's valid solids; a lone valid
solid is returned itself; any raise, or no valid solid, falls back to the
original compound. -/
def safe_fuse_fallback (k : Kernel) (shape : Shape) : Shape :=
  match shape.solids.filter (fun s => s.valid) with
  | [s] => s
  | s0 :: rest =>
    match fold_fuse k s0 rest with
    | .ok r => r
    | .error _ => shape
  | [] => shape

/-- `safe_fuse_compound` of beta_diff.py (lines 93-120): non-compounds
pass through; a compound is first `fuse([])`-ed, the result kept if
truthy, non-null and valid, with the pairwise fallback otherwise.  Total:
every internal raise is caught. -/
def safe_fuse_compound (k : Kernel) (shape : Shape) : Shape :=
  if shape.shapeType ≠ "Compound" then shape
  else
    match k.fuse shape [] with
    | .ok fused =>
      if fused.isnull = false ∧ fused.valid = true then fused
      else safe_fuse_fallback k shape
    | .error _ => safe_fuse_fallback k shape

/-- `simple_boolean_op` of beta_diff.py (lines 122-152).  The whole body
sits in `try: ... except Exception: print(...); return None`, so every
kernel raise is converted to `None`; the `Except` result type records
where an exception could escape — nowhere, every path is `.ok`. -/
def simple_boolean_op (k : Kernel) (shape1 shape2 : Shape)
    (operation : String) : Except String (Option Shape) :=
  if shape1.isnull || shape2.isnull then .ok none
  else
    let s1 := safe_fuse_compound k shape1
    let s2 := safe_fuse_compound k shape2
    if s1.isnull || s2.isnull then .ok none
    else
      match (if operation = "common" then some (k.common s1 s2)
             else if operation = "cut" then some (k.cut s1 s2)
             else none) with
      | none => .ok none
      | some (.error _) => .ok none
      | some (.ok result) => .ok (significance_filter (some result))

/-- The pre-validation of beta_diff.py `create_comparison_shapes`
(lines 158-163): a `None` or null shape, or one with
`abs(shape.Volume) < TOLLERANZA_VOLUME`, raises a `ValueError` (the
formatted volume inside the Python message is elided). -/
def validate_shape (name : String) (shape : Option Shape) :
    Except String Shape :=
  match shape with
  | none => .error ("Forma " ++ name ++ " è None o null")
  | some s =>
    if s.isnull then .error ("Forma " ++ name ++ " è None o null")
    else if |s.volume| < TOLLERANZA_VOLUME then
      .error ("Forma " ++ name ++ " troppo piccola")
    else .ok s

/-- `create_comparison_shapes` of beta_diff.py (lines 154-198): both
inputs are pre-validated, then the three boolean operations are computed
via `simple_boolean_op`; the surrounding `except ...: raise` re-raises,
modelled by propagating any `.error`. -/
def create_comparison_shapes (k : Kernel)
    (vecchio_shape nuovo_shape : Option Shape) : Except String DiffShapes :=
  match validate_shape "vecchio" vecchio_shape with
  | .error e => .error e
  | .ok v =>
    match validate_shape "nuovo" nuovo_shape with
    | .error e => .error e
    | .ok n =>
      match simple_boolean_op k v n "common" with
      | .error e => .error e
      | .ok invariate =>
        match simple_boolean_op k n v "cut" with
        | .error e => .error e
        | .ok aggiunte =>
          match simple_boolean_op k v n "cut" with
          | .error e => .error e
          | .ok rimosse =>
            .ok { invariate := invariate
                , aggiunte := aggiunte
                , rimosse := rimosse }

/-- The percentage computation of beta_diff.py (lines 188-189):
`(vol / total) * 100 if total > 0 else 0`. -/
def percentuale (vol total : ℚ) : ℚ :=
  if total > 0 then vol / total * 100 else 0

/-- The aggregate-validity test of beta_diff.py `create_comparison_shapes`
pre-validation, as a decidable predicate: `None`, kernel-null, or
magnitude below `TOLLERANZA_VOLUME`. -/
def invalid_aggregate (x : Option Shape) : Bool :=
  match x with
  | none => true
  | some s => s.isnull || decide (|s.volume| < TOLLERANZA_VOLUME)

/-- The error message of beta_diff.py main lines 212-215, naming the
documents whose aggregate is missing. -/
def missing_message (doc_old doc_new : Document) (v n : Option Shape) :
    String :=
  let missing :=
    (if falsyShape v then ["'" ++ doc_old.label ++ "'"] else []) ++
    (if falsyShape n then ["'" ++ doc_new.label ++ "'"] else [])
  "Nessuna geometria valida trovata in: " ++ String.intercalate ", " missing

/-- `main` of beta_diff.py (lines 200-271), up to the diff computation:
as in the step variant, the `Bool` records whether `App.newDocument` was
executed (line 220) and the `Except` is the single failure the
surrounding `try/except` surfaces (re-raised here, printed in the step
variant). -/
def main (k : Kernel) (docs : List Document) :
    Bool × Except RunError DiffShapes :=
  match get_comparison_documents docs with
  | .error m => (false, .error (.config m))
  | .ok (doc_old, doc_new) =>
    let vecchio_shape := get_combined_shape doc_old
    let nuovo_shape := get_combined_shape doc_new
    match vecchio_shape, nuovo_shape with
    | some v, some n =>
      if v.isnull || n.isnull then
        (false, .error (.empty (missing_message doc_old doc_new vecchio_shape nuovo_shape)))
      else
        match create_comparison_shapes k (some v) (some n) with
        | .ok shapes => (true, .ok shapes)
        | .error m => (true, .error (.comparison m))
    | _, _ =>
      (false, .error (.empty (missing_message doc_old doc_new vecchio_shape nuovo_shape)))

end beta_diff

/-! Concrete fixtures used by witnesses and counterexamples. -/

/-- A plain valid solid of volume 5. -/
def sA : Shape := .mk "Solid" 5 true false 1 []

/-- A plain valid solid of volume 7. -/
def sB : Shape := .mk "Solid" 7 true false 2 []

/-- A valid solid whose kernel reports a negative volume of magnitude 1. -/
def sNeg : Shape := .mk "Solid" (-1) true false 3 []

/-- A valid solid whose volume magnitude equals the epsilon exactly. -/
def sEps : Shape := .mk "Solid" TOLLERANZA_VOLUME true false 4 []

/-- The lone solid of `docC5`, at address 7. -/
def sC5 : Shape := .mk "Solid" 5 true false 7 []

/-- A concrete intersection result of volume 900. -/
def uC3 : Shape := .mk "Solid" 900 true false 10 []

/-- A concrete cut result of volume 100. -/
def cC3 : Shape := .mk "Solid" 100 true false 11 []

/-- A document holding only the negative-volume solid. -/
def docNeg : Document := ⟨"DocNeg", [⟨some sNeg⟩]⟩

/-- A document holding the single solid `sA`. -/
def docA : Document := ⟨"DocA", [⟨some sA⟩]⟩

/-- A document holding the single solid `sB`. -/
def docB : Document := ⟨"DocB", [⟨some sB⟩]⟩

/-- A document holding the two solids `sA` and `sB`. -/
def docAB : Document := ⟨"DocAB", [⟨some sA⟩, ⟨some sB⟩]⟩

/-- A document holding the single solid `sC5`. -/
def docC5 : Document := ⟨"DocC5", [⟨some sC5⟩]⟩

/-- A kernel whose primitives all succeed, echoing their first operand. -/
def K0 : Kernel :=
  { fuse := fun s _ => .ok s
  , common := fun s _ => .ok s
  , cut := fun s _ => .ok s
  , removeSplitter := fun s => .ok s }

/-- A kernel whose boolean primitives raise a fault that matches none of
the spec's recoverable-condition markers. -/
def K_fatal : Kernel :=
  { fuse := fun _ _ => .error "StdFail_NotDone"
  , common := fun _ _ => .error "StdFail_NotDone"
  , cut := fun _ _ => .error "StdFail_NotDone"
  , removeSplitter := fun _ => .error "StdFail_NotDone" }

/-- A kernel with fixed successful boolean results. -/
def K3 : Kernel :=
  { fuse := fun s _ => .ok s
  , common := fun _ _ => .ok uC3
  , cut := fun _ _ => .ok cC3
  , removeSplitter := fun s => .ok s }

/-- A kernel whose `fuse` always raises but whose other primitives
succeed. -/
def K4 : Kernel :=
  { fuse := fun _ _ => .error "BOPAlgo_AlertBuilderFailed"
  , common := fun s _ => .ok s
  , cut := fun s _ => .ok s
  , removeSplitter := fun s => .ok s }

/-- Whether an optional category shape, if present, passed the step
variant's significance acceptance — the invariant every `DiffShapes`
produced by the pipeline satisfies. -/
def present_significant (x : Option Shape) : Bool :=
  match x with
  | none => true
  | some s => decide (s.volume > TOLLERANZA_VOLUME)

/-- Whether a comparison outcome is a raised error. -/
def isError (x : Except String DiffShapes) : Bool :=
  match x with
  | .error _ => true
  | .ok _ => false

/-- A concrete pipeline-shaped diff result: unchanged volume 900, no
additions, removed volume 100. -/
def DS6 : DiffShapes :=
  { invariate := some uC3, aggiunte := none, rimosse := some cC3 }

/-! Helper lemmas. -/

/-- Membership in a collector built like `get_valid_shapes`: the object
list contributes exactly its shapes satisfying the predicate. -/
theorem mem_collector (P : Shape → Prop) [DecidablePred P]
    (objs : List DocObject) (s : Shape) :
    (s ∈ objs.filterMap fun obj => obj.shape.bind fun t =>
        if P t then some t else none) ↔
      (∃ obj ∈ objs, obj.shape = some s) ∧ P s := by
  simp only [List.mem_filterMap, Option.bind_eq_some]
  constructor
  · rintro ⟨obj, hmem, t, hshape, hif⟩
    rcases Option.ite_none_right_eq_some.mp hif with ⟨hP, hts⟩
    cases Option.some_inj.mp hts
    exact ⟨⟨obj, hmem, hshape⟩, hP⟩
  · rintro ⟨⟨obj, hmem, hshape⟩, hP⟩
    exact ⟨obj, hmem, s, hshape, by rw [if_pos hP]⟩

/-- Evaluation of a `get_valid_shapes`-style collector on a document with
one shape-bearing object. -/
theorem collector_singleton (P : Shape → Prop) [DecidablePred P]
    (s : Shape) :
    ([DocObject.mk (some s)].filterMap fun obj => obj.shape.bind fun t =>
        if P t then some t else none) = if P s then [s] else [] := by
  by_cases h : P s
  · simp only [List.filterMap_cons, List.filterMap_nil, Option.some_bind,
      if_pos h]
  · simp only [List.filterMap_cons, List.filterMap_nil, Option.some_bind,
      if_neg h]

/-- Evaluation of a `get_valid_shapes`-style collector one object at a
time. -/
theorem collector_cons (P : Shape → Prop) [DecidablePred P] (s : Shape)
    (objs : List DocObject) :
    ((DocObject.mk (some s)) :: objs).filterMap (fun obj =>
        obj.shape.bind fun t => if P t then some t else none) =
      (if P s then [s] else []) ++ objs.filterMap (fun obj =>
        obj.shape.bind fun t => if P t then some t else none) := by
  by_cases h : P s
  · simp only [List.filterMap_cons, Option.some_bind, if_pos h,
      List.cons_append, List.nil_append]
  · simp only [List.filterMap_cons, Option.some_bind, if_neg h,
      List.nil_append]

/-- A passing `significance_filter`-style test, characterized. -/
theorem filter_passes (P : Prop) [Decidable P] (s x : Shape) :
    (if P then some s else none) = some x ↔ P ∧ some s = some x :=
  Option.ite_none_right_eq_some

/-! C2. -/

/-- C2: the claim states that significance is always tested by magnitude,
`|Volume| > ε`.  That is refuted here: `sNeg` has `|Volume| = 1 > ε`, is
valid and non-null, yet the step variant's collection returns nothing for
a document containing it, and the step variant's result acceptance maps
it to `None` — the step variant compares the signed volume. -/
theorem negative_volume_solid_rejected_by_step :
    |sNeg.volume| > TOLLERANZA_VOLUME
  ∧ sNeg.valid = true ∧ sNeg.isnull = false
  ∧ docNeg.objects = [DocObject.mk (some sNeg)]
  ∧ step_diff.get_valid_shapes docNeg = []
  ∧ step_diff.significance_filter (some sNeg) = none := by
  refine ⟨by norm_num [sNeg, Shape.volume, TOLLERANZA_VOLUME], rfl, rfl, rfl,
    ?_, ?_⟩
  · show ([DocObject.mk (some sNeg)].filterMap fun obj =>
        obj.shape.bind fun t =>
          if t.isnull = false ∧ t.valid = true ∧ t.volume > TOLLERANZA_VOLUME
          then some t else none) = []
    rw [collector_singleton, if_neg]
    norm_num [sNeg, Shape.isnull, Shape.valid, Shape.volume,
      TOLLERANZA_VOLUME]
  · simp only [step_diff.significance_filter]
    rw [if_neg]
    norm_num [sNeg, Shape.volume, TOLLERANZA_VOLUME]

/-- C2 (amended): significance is a strict comparison against the epsilon
at every stage, but only the beta variant compares by magnitude; the step
variant compares the signed volume directly, so a negative-volume solid
is never significant there.  At `|Volume| = ε` significance is false in
both variants (strict inequality), witnessed by `sEps`. -/
theorem significance_strict_magnitude_beta_signed_step (doc : Document)
    (s : Shape) :
    (s ∈ beta_diff.get_valid_shapes doc ↔
      (∃ obj ∈ doc.objects, obj.shape = some s) ∧ s.isnull = false ∧
        s.valid = true ∧ |s.volume| > TOLLERANZA_VOLUME)
  ∧ (s ∈ step_diff.get_valid_shapes doc ↔
      (∃ obj ∈ doc.objects, obj.shape = some s) ∧ s.isnull = false ∧
        s.valid = true ∧ s.volume > TOLLERANZA_VOLUME)
  ∧ (beta_diff.significance_filter (some s) = some s ↔
      s.isnull = false ∧ |s.volume| > TOLLERANZA_VOLUME)
  ∧ (step_diff.significance_filter (some s) = some s ↔
      s.volume > TOLLERANZA_VOLUME)
  ∧ beta_diff.significance_filter (some sEps) = none
  ∧ step_diff.significance_filter (some sEps) = none := by
  refine ⟨mem_collector _ doc.objects s, mem_collector _ doc.objects s,
    ?_, ?_, ?_, ?_⟩
  · simp only [beta_diff.significance_filter]
    exact (filter_passes _ s s).trans (by simp)
  · simp only [step_diff.significance_filter]
    exact (filter_passes _ s s).trans (by simp)
  · simp only [beta_diff.significance_filter]
    rw [if_neg]
    norm_num [sEps, Shape.isnull, Shape.volume, TOLLERANZA_VOLUME]
    rw [abs_of_pos (by norm_num)]
  · simp only [step_diff.significance_filter]
    rw [if_neg]
    norm_num [sEps, Shape.volume, TOLLERANZA_VOLUME]

/-! C9. -/

/-- C9: both variants' significance filters are idempotent — re-filtering
an already-filtered optional solid is a no-op. -/
theorem significance_filter_idempotent (x : Option Shape) :
    beta_diff.significance_filter (beta_diff.significance_filter x) =
      beta_diff.significance_filter x
  ∧ step_diff.significance_filter (step_diff.significance_filter x) =
      step_diff.significance_filter x := by
  constructor
  · cases x with
    | none => rfl
    | some s =>
      by_cases h : s.isnull = false ∧ |s.volume| > TOLLERANZA_VOLUME
      · have h1 : beta_diff.significance_filter (some s) = some s := by
          simp only [beta_diff.significance_filter]; rw [if_pos h]
        rw [h1, h1]
      · have h1 : beta_diff.significance_filter (some s) = none := by
          simp only [beta_diff.significance_filter]; rw [if_neg h]
        rw [h1]; rfl
  · cases x with
    | none => rfl
    | some s =>
      by_cases h : s.volume > TOLLERANZA_VOLUME
      · have h1 : step_diff.significance_filter (some s) = some s := by
          simp only [step_diff.significance_filter]; rw [if_pos h]
        rw [h1, h1]
      · have h1 : step_diff.significance_filter (some s) = none := by
          simp only [step_diff.significance_filter]; rw [if_neg h]
        rw [h1]; rfl

/-! Concrete collector evaluations, used to discharge hypotheses. -/

/-- The step collector on `docC5`. -/
theorem step_collects_docC5 : step_diff.get_valid_shapes docC5 = [sC5] := by
  show ([DocObject.mk (some sC5)].filterMap fun obj =>
      obj.shape.bind fun t =>
        if t.isnull = false ∧ t.valid = true ∧ t.volume > TOLLERANZA_VOLUME
        then some t else none) = [sC5]
  rw [collector_singleton, if_pos]
  exact ⟨rfl, rfl, by norm_num [sC5, Shape.volume, TOLLERANZA_VOLUME]⟩

/-- The beta collector on `docC5`. -/
theorem beta_collects_docC5 : beta_diff.get_valid_shapes docC5 = [sC5] := by
  show ([DocObject.mk (some sC5)].filterMap fun obj =>
      obj.shape.bind fun t =>
        if t.isnull = false ∧ t.valid = true ∧ |t.volume| > TOLLERANZA_VOLUME
        then some t else none) = [sC5]
  rw [collector_singleton, if_pos]
  exact ⟨rfl, rfl, by norm_num [sC5, Shape.volume, TOLLERANZA_VOLUME]⟩

/-- The step collector on `docAB`. -/
theorem step_collects_docAB : step_diff.get_valid_shapes docAB = [sA, sB] := by
  show ((DocObject.mk (some sA)) :: [DocObject.mk (some sB)]).filterMap
      (fun obj => obj.shape.bind fun t =>
        if t.isnull = false ∧ t.valid = true ∧ t.volume > TOLLERANZA_VOLUME
        then some t else none) = [sA, sB]
  rw [collector_cons, collector_singleton]
  rw [if_pos (⟨rfl, rfl, by norm_num [sA, Shape.volume, TOLLERANZA_VOLUME]⟩ :
      sA.isnull = false ∧ sA.valid = true ∧ sA.volume > TOLLERANZA_VOLUME)]
  rw [if_pos (⟨rfl, rfl, by norm_num [sB, Shape.volume, TOLLERANZA_VOLUME]⟩ :
      sB.isnull = false ∧ sB.valid = true ∧ sB.volume > TOLLERANZA_VOLUME)]
  rfl

/-- The step collector on `docA`. -/
theorem step_collects_docA : step_diff.get_valid_shapes docA = [sA] := by
  show ([DocObject.mk (some sA)].filterMap fun obj =>
      obj.shape.bind fun t =>
        if t.isnull = false ∧ t.valid = true ∧ t.volume > TOLLERANZA_VOLUME
        then some t else none) = [sA]
  rw [collector_singleton, if_pos]
  exact ⟨rfl, rfl, by norm_num [sA, Shape.volume, TOLLERANZA_VOLUME]⟩

/-- The step collector on `docB`. -/
theorem step_collects_docB : step_diff.get_valid_shapes docB = [sB] := by
  show ([DocObject.mk (some sB)].filterMap fun obj =>
      obj.shape.bind fun t =>
        if t.isnull = false ∧ t.valid = true ∧ t.volume > TOLLERANZA_VOLUME
        then some t else none) = [sB]
  rw [collector_singleton, if_pos]
  exact ⟨rfl, rfl, by norm_num [sB, Shape.volume, TOLLERANZA_VOLUME]⟩

/-- The beta collector on `docA`. -/
theorem beta_collects_docA : beta_diff.get_valid_shapes docA = [sA] := by
  show ([DocObject.mk (some sA)].filterMap fun obj =>
      obj.shape.bind fun t =>
        if t.isnull = false ∧ t.valid = true ∧ |t.volume| > TOLLERANZA_VOLUME
        then some t else none) = [sA]
  rw [collector_singleton, if_pos]
  exact ⟨rfl, rfl, by norm_num [sA, Shape.volume, TOLLERANZA_VOLUME]⟩

/-- The beta collector on `docB`. -/
theorem beta_collects_docB : beta_diff.get_valid_shapes docB = [sB] := by
  show ([DocObject.mk (some sB)].filterMap fun obj =>
      obj.shape.bind fun t =>
        if t.isnull = false ∧ t.valid = true ∧ |t.volume| > TOLLERANZA_VOLUME
        then some t else none) = [sB]
  rw [collector_singleton, if_pos]
  exact ⟨rfl, rfl, by norm_num [sB, Shape.volume, TOLLERANZA_VOLUME]⟩

/-! C1. -/

/-- Every path of the beta variant's `simple_boolean_op` returns
normally: the enclosing `except Exception` converts any kernel raise into
a `None` result, so no fault — recoverable-looking or not — ever escapes
it. -/
theorem simple_boolean_op_no_raise (k : Kernel) (s1 s2 : Shape)
    (op m : String) :
    beta_diff.simple_boolean_op k s1 s2 op ≠ Except.error m := by
  simp only [beta_diff.simple_boolean_op]
  split
  · exact fun h => Except.noConfusion h
  · split
    · exact fun h => Except.noConfusion h
    · split
      · exact fun h => Except.noConfusion h
      · exact fun h => Except.noConfusion h
      · exact fun h => Except.noConfusion h

/-- C1: the claim says a kernel fault that matches no recoverable-
condition marker propagates and aborts the run.  In the beta variant it
does not: with a kernel whose `common` raises `StdFail_NotDone` (matching
no marker — the source inspects no markers at all), `simple_boolean_op`
returns `None` normally instead of propagating the fault. -/
theorem unmatched_fault_swallowed_by_beta :
    beta_diff.simple_boolean_op K_fatal sA sB "common" = Except.ok none
  ∧ (Except.ok none : Except String (Option Shape)) ≠
      Except.error "StdFail_NotDone" := by
  exact ⟨rfl, fun h => Except.noConfusion h⟩

/-- The step selection on the two one-solid documents `docA`, `docB`. -/
theorem step_selects_docAB :
    step_diff.get_comparison_documents [docA, docB] =
      Except.ok (docA, docB) := by
  have h1 : (!(step_diff.get_valid_shapes docA).isEmpty) = true := by
    rw [step_collects_docA]; rfl
  have h2 : (!(step_diff.get_valid_shapes docB).isEmpty) = true := by
    rw [step_collects_docB]; rfl
  have hfil : List.filter (fun d => !(step_diff.get_valid_shapes d).isEmpty)
      [docA, docB] = [docA, docB] := by
    rw [List.filter_cons, if_pos h1, List.filter_cons, if_pos h2,
      List.filter_nil]
  simp only [step_diff.get_comparison_documents, hfil]
  rw [if_neg (by norm_num)]

/-- C1 (amended): neither variant classifies kernel faults against a
recoverable-marker set.  The beta variant catches every fault inside
`simple_boolean_op` and returns `None` — no fault, matching or not, ever
propagates from a boolean operation.  In the step variant a fault raised
at any stage of the comparison — the intersect call, either subtract
call, or either `removeSplitter` cleanup (the hypothesis enumerates the
first raising stage of the executed sequence) — propagates out of
`create_comparison_shapes`, and any run that reaches the comparison
stage aborts with exactly that fault as its single surfaced failure. -/
theorem no_fault_classification_in_either_variant (k : Kernel)
    (s1 s2 old new : Shape) (op m e : String)
    (h : k.common old new = Except.error e
       ∨ (∃ u, k.common old new = Except.ok u
            ∧ k.cut new old = Except.error e)
       ∨ (∃ u a, k.common old new = Except.ok u
            ∧ k.cut new old = Except.ok a
            ∧ k.removeSplitter a = Except.error e)
       ∨ (∃ u a a2, k.common old new = Except.ok u
            ∧ k.cut new old = Except.ok a
            ∧ k.removeSplitter a = Except.ok a2
            ∧ k.cut old new = Except.error e)
       ∨ (∃ u a a2 r, k.common old new = Except.ok u
            ∧ k.cut new old = Except.ok a
            ∧ k.removeSplitter a = Except.ok a2
            ∧ k.cut old new = Except.ok r
            ∧ k.removeSplitter r = Except.error e)) :
    beta_diff.simple_boolean_op k s1 s2 op ≠ Except.error m
  ∧ step_diff.create_comparison_shapes k old new = Except.error e
  ∧ (∀ docs d1 d2,
      step_diff.get_comparison_documents docs = Except.ok (d1, d2) →
      step_diff.get_fused_shape k d1 = some old →
      step_diff.get_fused_shape k d2 = some new →
      old.isnull = false → new.isnull = false →
      step_diff.main k docs =
        (true, Except.error (RunError.comparison e))) := by
  have hcreate : step_diff.create_comparison_shapes k old new =
      Except.error e := by
    rcases h with h | ⟨u, hu, h⟩ | ⟨u, a, hu, ha, h⟩
      | ⟨u, a, a2, hu, ha, ha2, h⟩ | ⟨u, a, a2, r, hu, ha, ha2, hr, h⟩
    · simp only [step_diff.create_comparison_shapes, h]
    · simp only [step_diff.create_comparison_shapes, hu, h]
    · simp only [step_diff.create_comparison_shapes, hu, ha, h]
    · simp only [step_diff.create_comparison_shapes, hu, ha, ha2, h]
    · simp only [step_diff.create_comparison_shapes, hu, ha, ha2, hr, h]
  refine ⟨simple_boolean_op_no_raise k s1 s2 op m, hcreate, ?_⟩
  intro docs d1 d2 hdocs h1 h2 hn1 hn2
  simp only [step_diff.main, hdocs, h1, h2, hn1, hn2, Bool.or_self,
    Bool.false_eq_true, if_false, hcreate]

/-- C1 amended, at a concrete input: under the fatal-fault kernel the
beta variant's boolean op still returns normally, while the step
variant's comparison propagates the fault and the whole step run on two
valid one-solid documents aborts with it. -/
theorem no_fault_classification_witness :
    beta_diff.simple_boolean_op K_fatal sA sB "cut" ≠ Except.error "boom"
  ∧ step_diff.create_comparison_shapes K_fatal sA sB =
      Except.error "StdFail_NotDone"
  ∧ step_diff.main K_fatal [docA, docB] =
      (true, Except.error (RunError.comparison "StdFail_NotDone")) := by
  have h := no_fault_classification_in_either_variant K_fatal sA sB sA sB
    "cut" "boom" "StdFail_NotDone" (Or.inl rfl)
  refine ⟨h.1, h.2.1,
    h.2.2 [docA, docB] docA docB step_selects_docAB ?_ ?_ rfl rfl⟩
  · simp only [step_diff.get_fused_shape, step_collects_docA]
  · simp only [step_diff.get_fused_shape, step_collects_docB]

/-! C3. -/

/-- C3: the three diff categories are computed with exactly the claimed
operand orders — Unchanged from `common(Old, New)`, Added from
`cut(New, Old)`, Removed from `cut(Old, New)` — in both variants, each
category determined only by its own kernel call (the hypotheses name the
three calls independently). -/
theorem diff_category_operand_order (k : Kernel) (old new u a a2 r r2 : Shape)
    (iB aB rB : Option Shape)
    (hu : k.common old new = Except.ok u)
    (ha : k.cut new old = Except.ok a)
    (ha2 : k.removeSplitter a = Except.ok a2)
    (hr : k.cut old new = Except.ok r)
    (hr2 : k.removeSplitter r = Except.ok r2)
    (hvv : beta_diff.validate_shape "vecchio" (some old) = Except.ok old)
    (hvn : beta_diff.validate_shape "nuovo" (some new) = Except.ok new)
    (hbi : beta_diff.simple_boolean_op k old new "common" = Except.ok iB)
    (hba : beta_diff.simple_boolean_op k new old "cut" = Except.ok aB)
    (hbr : beta_diff.simple_boolean_op k old new "cut" = Except.ok rB) :
    step_diff.create_comparison_shapes k old new =
      Except.ok { invariate := step_diff.significance_filter (some u)
                , aggiunte := step_diff.significance_filter (some a2)
                , rimosse := step_diff.significance_filter (some r2) }
  ∧ beta_diff.create_comparison_shapes k (some old) (some new) =
      Except.ok { invariate := iB, aggiunte := aB, rimosse := rB } := by
  constructor
  · simp only [step_diff.create_comparison_shapes, hu, ha, ha2, hr, hr2]
  · simp only [beta_diff.create_comparison_shapes, hvv, hvn, hbi, hba, hbr]

/-- `validate_shape` accepts `sA`. -/
theorem validate_sA (name : String) :
    beta_diff.validate_shape name (some sA) = Except.ok sA := by
  simp only [beta_diff.validate_shape, sA, Shape.isnull, Shape.volume]
  rw [if_neg (by norm_num), if_neg (by norm_num [TOLLERANZA_VOLUME])]

/-- `validate_shape` accepts `sB`. -/
theorem validate_sB (name : String) :
    beta_diff.validate_shape name (some sB) = Except.ok sB := by
  simp only [beta_diff.validate_shape, sB, Shape.isnull, Shape.volume]
  rw [if_neg (by norm_num), if_neg (by norm_num [TOLLERANZA_VOLUME])]

/-- `simple_boolean_op` under `K3`, on plain solids: `common` yields the
filtered `uC3`, `cut` the filtered `cC3`. -/
theorem sbo_K3_common (x y : Shape)
    (hx : x.isnull = false) (hy : y.isnull = false)
    (hxt : x.shapeType = "Solid") (hyt : y.shapeType = "Solid") :
    beta_diff.simple_boolean_op K3 x y "common" = Except.ok (some uC3) := by
  have hfx : beta_diff.safe_fuse_compound K3 x = x := by
    simp only [beta_diff.safe_fuse_compound]
    rw [if_pos (by rw [hxt]; decide)]
  have hfy : beta_diff.safe_fuse_compound K3 y = y := by
    simp only [beta_diff.safe_fuse_compound]
    rw [if_pos (by rw [hyt]; decide)]
  have hsig : beta_diff.significance_filter (some uC3) = some uC3 := by
    simp only [beta_diff.significance_filter]
    rw [if_pos ⟨rfl, by norm_num [uC3, Shape.volume, TOLLERANZA_VOLUME]⟩]
  have hcall : K3.common x y = Except.ok uC3 := rfl
  simp [beta_diff.simple_boolean_op, hfx, hfy, hx, hy, hcall, hsig]

/-- `simple_boolean_op` under `K3` with `cut`: the filtered `cC3`. -/
theorem sbo_K3_cut (x y : Shape)
    (hx : x.isnull = false) (hy : y.isnull = false)
    (hxt : x.shapeType = "Solid") (hyt : y.shapeType = "Solid") :
    beta_diff.simple_boolean_op K3 x y "cut" = Except.ok (some cC3) := by
  have hfx : beta_diff.safe_fuse_compound K3 x = x := by
    simp only [beta_diff.safe_fuse_compound]
    rw [if_pos (by rw [hxt]; decide)]
  have hfy : beta_diff.safe_fuse_compound K3 y = y := by
    simp only [beta_diff.safe_fuse_compound]
    rw [if_pos (by rw [hyt]; decide)]
  have hsig : beta_diff.significance_filter (some cC3) = some cC3 := by
    simp only [beta_diff.significance_filter]
    rw [if_pos ⟨rfl, by norm_num [cC3, Shape.volume, TOLLERANZA_VOLUME]⟩]
  have hcall : K3.cut x y = Except.ok cC3 := rfl
  simp [beta_diff.simple_boolean_op, hfx, hfy, hx, hy, hcall, hsig]

/-- C3 at a concrete input: kernel `K3` on `sA`, `sB`. -/
theorem diff_category_operand_order_witness :
    step_diff.create_comparison_shapes K3 sA sB =
      Except.ok { invariate := step_diff.significance_filter (some uC3)
                , aggiunte := step_diff.significance_filter (some cC3)
                , rimosse := step_diff.significance_filter (some cC3) }
  ∧ beta_diff.create_comparison_shapes K3 (some sA) (some sB) =
      Except.ok { invariate := some uC3, aggiunte := some cC3
                , rimosse := some cC3 } :=
  diff_category_operand_order K3 sA sB uC3 cC3 cC3 cC3 cC3
    (some uC3) (some cC3) (some cC3) rfl rfl rfl rfl rfl
    (validate_sA "vecchio") (validate_sB "nuovo")
    (sbo_K3_common sA sB rfl rfl rfl rfl)
    (sbo_K3_cut sB sA rfl rfl rfl rfl)
    (sbo_K3_cut sA sB rfl rfl rfl rfl)

/-! C4. -/

/-- C4: in the step variant (Union strategy), once the fuse fold raises,
`get_fused_shape` returns the un-fused compound of all original collected
inputs; the fallback is a total constructor, so this path cannot itself
raise — the function's `Option Shape` result type records that no
exception escapes it. -/
theorem union_fuse_fallback_compound (k : Kernel) (doc : Document)
    (s0 s1 : Shape) (rest : List Shape) (e : String)
    (hshapes : step_diff.get_valid_shapes doc = s0 :: s1 :: rest)
    (hfold : fold_fuse k s0 (s1 :: rest) = Except.error e) :
    step_diff.get_fused_shape k doc =
      some (makeCompound (s0 :: s1 :: rest)) := by
  simp only [step_diff.get_fused_shape, hshapes, hfold]

/-- C4 at a concrete input: the always-raising fuse of `K4` on the
two-solid document. -/
theorem union_fuse_fallback_witness :
    step_diff.get_fused_shape K4 docAB = some (makeCompound [sA, sB]) :=
  union_fuse_fallback_compound K4 docAB sA sB []
    "BOPAlgo_AlertBuilderFailed" step_collects_docAB rfl

/-! C5. -/

/-- C5: the claim says aggregation of a single-solid list returns an
independent copy in both variants.  The step variant does not copy: on
`docC5` it hands back the collected solid itself (the very object, its
address preserved), whereas an independent copy — as the beta variant
returns — has a fresh address. -/
theorem step_single_solid_not_an_independent_copy :
    step_diff.get_fused_shape K0 docC5 = some sC5
  ∧ sC5.copy.addr ≠ sC5.addr
  ∧ beta_diff.get_combined_shape docC5 = some sC5.copy := by
  refine ⟨?_, Nat.succ_ne_self _, ?_⟩
  · simp only [step_diff.get_fused_shape, step_collects_docC5]
  · simp only [beta_diff.get_combined_shape, beta_collects_docC5]

/-- C5 (amended): aggregating a single collected solid returns a shape
equal to it in volume, validity and nullity; the beta variant returns an
independent `copy()` (a distinct object, fresh address), while the step
variant returns the source solid itself.  Neither variant mutates the
source — the whole pipeline only reads shapes, which the embedding
reflects by being pure. -/
theorem single_solid_aggregation (k : Kernel) (doc docS : Document)
    (s t : Shape)
    (hbeta : beta_diff.get_valid_shapes doc = [s])
    (hstep : step_diff.get_valid_shapes docS = [t]) :
    beta_diff.get_combined_shape doc = some s.copy
  ∧ s.copy.volume = s.volume ∧ s.copy.valid = s.valid
  ∧ s.copy.isnull = s.isnull ∧ s.copy.addr ≠ s.addr
  ∧ step_diff.get_fused_shape k docS = some t := by
  refine ⟨?_, rfl, rfl, rfl, Nat.succ_ne_self _, ?_⟩
  · simp only [beta_diff.get_combined_shape, hbeta]
  · simp only [step_diff.get_fused_shape, hstep]

/-- C5 amended, at a concrete input: the one-solid document `docC5`. -/
theorem single_solid_aggregation_witness :
    beta_diff.get_combined_shape docC5 = some sC5.copy
  ∧ sC5.copy.volume = sC5.volume ∧ sC5.copy.valid = sC5.valid
  ∧ sC5.copy.isnull = sC5.isnull ∧ sC5.copy.addr ≠ sC5.addr
  ∧ step_diff.get_fused_shape K0 docC5 = some sC5 :=
  single_solid_aggregation K0 docC5 docC5 sC5 sC5
    beta_collects_docC5 step_collects_docC5

/-! C6. -/

/-- C6: the report is computed by total functions that cannot fail; for a
pipeline-shaped `DiffShapes` (each present category significant), each
reported category volume is `0` when absent and `|Volume|` otherwise, the
net change is the added volume minus the removed volume, and each
percentage is the category volume over the version total, `0` when that
total is `0`. -/
theorem diff_report_never_fails (shapes : DiffShapes) (v total : ℚ)
    (hinv : present_significant shapes.invariate = true)
    (hagg : present_significant shapes.aggiunte = true)
    (hrim : present_significant shapes.rimosse = true)
    (htot : 0 < total) :
    (step_diff.volumi shapes).1 =
      (match shapes.invariate with | none => 0 | some s => |s.volume|)
  ∧ (step_diff.volumi shapes).2.1 =
      (match shapes.aggiunte with | none => 0 | some s => |s.volume|)
  ∧ (step_diff.volumi shapes).2.2 =
      (match shapes.rimosse with | none => 0 | some s => |s.volume|)
  ∧ step_diff.variazione_netta shapes =
      (step_diff.volumi shapes).2.1 - (step_diff.volumi shapes).2.2
  ∧ beta_diff.percentuale v 0 = 0
  ∧ beta_diff.percentuale v total = v / total * 100 := by
  have habs : ∀ (x : Option Shape), present_significant x = true →
      (match x with | some s => s.volume | none => 0) =
      (match x with | none => (0 : ℚ) | some s => |s.volume|) := by
    intro x hx
    cases x with
    | none => rfl
    | some s =>
      simp only [present_significant, decide_eq_true_eq] at hx
      show s.volume = |s.volume|
      rw [abs_of_pos (lt_trans (by norm_num [TOLLERANZA_VOLUME]) hx)]
  refine ⟨habs _ hinv, habs _ hagg, habs _ hrim, rfl, ?_, ?_⟩
  · simp only [beta_diff.percentuale]
    rw [if_neg (lt_irrefl 0)]
  · simp only [beta_diff.percentuale]
    rw [if_pos htot]

/-- C6 at a concrete input: the diff result `DS6` and totals `0`, `2`. -/
theorem diff_report_never_fails_witness :
    (step_diff.volumi DS6).1 =
      (match DS6.invariate with | none => 0 | some s => |s.volume|)
  ∧ (step_diff.volumi DS6).2.1 =
      (match DS6.aggiunte with | none => 0 | some s => |s.volume|)
  ∧ (step_diff.volumi DS6).2.2 =
      (match DS6.rimosse with | none => 0 | some s => |s.volume|)
  ∧ step_diff.variazione_netta DS6 =
      (step_diff.volumi DS6).2.1 - (step_diff.volumi DS6).2.2
  ∧ beta_diff.percentuale 3 0 = 0
  ∧ beta_diff.percentuale 3 2 = 3 / 2 * 100 :=
  diff_report_never_fails DS6 3 2
    (by norm_num [present_significant, DS6, uC3, Shape.volume,
      TOLLERANZA_VOLUME])
    rfl
    (by norm_num [present_significant, DS6, cC3, Shape.volume,
      TOLLERANZA_VOLUME])
    (by norm_num)

/-! C7. -/

/-- The beta variant's extra `has_geometry` check is redundant: a
document with a nonempty beta collection has a truthy shape, so the two
filter predicates coincide on every document. -/
theorem beta_qualifier_eq (docs : List Document) :
    docs.filter (fun d =>
        !(beta_diff.get_valid_shapes d).isEmpty && beta_diff.has_geometry d) =
      docs.filter (fun d => !(beta_diff.get_valid_shapes d).isEmpty) := by
  apply List.filter_congr
  intro d _
  by_cases h : (beta_diff.get_valid_shapes d).isEmpty
  · simp [h]
  · have hne : beta_diff.get_valid_shapes d ≠ [] := fun hnil => h (by simp [hnil])
    obtain ⟨s, hs⟩ := List.exists_mem_of_ne_nil _ hne
    have hm := (mem_collector (fun t => t.isnull = false ∧ t.valid = true ∧
        |t.volume| > TOLLERANZA_VOLUME) d.objects s).mp hs
    obtain ⟨⟨obj, hmem, hshape⟩, h1, _, _⟩ := hm
    have hg : beta_diff.has_geometry d = true := by
      simp only [beta_diff.has_geometry, List.any_eq_true]
      refine ⟨obj, hmem, ?_⟩
      rw [hshape]
      simp [h1]
    simp [h, hg]

/-- C7: in both variants the selection rule returns, in stable original
order, the first two documents whose collection is nonempty; when fewer
than two qualify, `get_comparison_documents` raises a `ValueError`
(configuration error) and `main` aborts with it before any output
artifact is created or any kernel call is reachable. -/
theorem version_container_selection (k : Kernel) (docs : List Document) :
    (match docs.filter (fun d => !(step_diff.get_valid_shapes d).isEmpty) with
     | d1 :: d2 :: _ =>
        step_diff.get_comparison_documents docs = Except.ok (d1, d2)
     | _ =>
        ∃ m, step_diff.get_comparison_documents docs = Except.error m
          ∧ step_diff.main k docs = (false, Except.error (RunError.config m)))
  ∧ (match docs.filter (fun d => !(beta_diff.get_valid_shapes d).isEmpty) with
     | d1 :: d2 :: _ =>
        beta_diff.get_comparison_documents docs = Except.ok (d1, d2)
     | _ =>
        ∃ m, beta_diff.get_comparison_documents docs = Except.error m
          ∧ beta_diff.main k docs = (false, Except.error (RunError.config m))) := by
  constructor
  · cases hf : docs.filter (fun d => !(step_diff.get_valid_shapes d).isEmpty) with
    | nil =>
      by_cases hlen : docs.length < 2
      · refine ⟨"Apri almeno due documenti STEP per eseguire il confronto.",
          ?_, ?_⟩
        · simp only [step_diff.get_comparison_documents]
          rw [if_pos hlen]
        · simp only [step_diff.main, step_diff.get_comparison_documents]
          rw [if_pos hlen]
      · refine ⟨"Almeno due documenti devono contenere geometrie valide.",
          ?_, ?_⟩
        · simp only [step_diff.get_comparison_documents, hf]
          rw [if_neg hlen]
        · simp only [step_diff.main, step_diff.get_comparison_documents, hf]
          rw [if_neg hlen]
    | cons d1 tl =>
      cases tl with
      | nil =>
        by_cases hlen : docs.length < 2
        · refine ⟨"Apri almeno due documenti STEP per eseguire il confronto.",
            ?_, ?_⟩
          · simp only [step_diff.get_comparison_documents]
            rw [if_pos hlen]
          · simp only [step_diff.main, step_diff.get_comparison_documents]
            rw [if_pos hlen]
        · refine ⟨"Almeno due documenti devono contenere geometrie valide.",
            ?_, ?_⟩
          · simp only [step_diff.get_comparison_documents, hf]
            rw [if_neg hlen]
          · simp only [step_diff.main, step_diff.get_comparison_documents, hf]
            rw [if_neg hlen]
      | cons d2 tl2 =>
        have hlen : ¬(docs.length < 2) := by
          have h1 := List.length_filter_le
            (fun d => !(step_diff.get_valid_shapes d).isEmpty) docs
          rw [hf] at h1
          simp only [List.length_cons] at h1
          omega
        simp only [step_diff.get_comparison_documents, hf]
        rw [if_neg hlen]
  · cases hf : docs.filter (fun d => !(beta_diff.get_valid_shapes d).isEmpty) with
    | nil =>
      by_cases hlen : docs.length < 2
      · refine ⟨"Apri almeno due documenti STEP per eseguire il confronto.",
          ?_, ?_⟩
        · simp only [beta_diff.get_comparison_documents]
          rw [if_pos hlen]
        · simp only [beta_diff.main, beta_diff.get_comparison_documents]
          rw [if_pos hlen]
      · refine ⟨"Almeno due documenti devono contenere geometrie valide.",
          ?_, ?_⟩
        · simp only [beta_diff.get_comparison_documents, beta_qualifier_eq, hf]
          rw [if_neg hlen]
        · simp only [beta_diff.main, beta_diff.get_comparison_documents,
            beta_qualifier_eq, hf]
          rw [if_neg hlen]
    | cons d1 tl =>
      cases tl with
      | nil =>
        by_cases hlen : docs.length < 2
        · refine ⟨"Apri almeno due documenti STEP per eseguire il confronto.",
            ?_, ?_⟩
          · simp only [beta_diff.get_comparison_documents]
            rw [if_pos hlen]
          · simp only [beta_diff.main, beta_diff.get_comparison_documents]
            rw [if_pos hlen]
        · refine ⟨"Almeno due documenti devono contenere geometrie valide.",
            ?_, ?_⟩
          · simp only [beta_diff.get_comparison_documents, beta_qualifier_eq,
              hf]
            rw [if_neg hlen]
          · simp only [beta_diff.main, beta_diff.get_comparison_documents,
              beta_qualifier_eq, hf]
            rw [if_neg hlen]
      | cons d2 tl2 =>
        have hlen : ¬(docs.length < 2) := by
          have h1 := List.length_filter_le
            (fun d => !(beta_diff.get_valid_shapes d).isEmpty) docs
          rw [hf] at h1
          simp only [List.length_cons] at h1
          omega
        simp only [beta_diff.get_comparison_documents, beta_qualifier_eq, hf]
        rw [if_neg hlen]

/-! C8. -/

/-- Case shape of the step variant's `main`: either it aborts with no
output document created, or the comparison stage was reached — which
happens only after `App.newDocument`. -/
theorem main_step_cases (k : Kernel) (docs : List Document) :
    (step_diff.main k docs).1 = false
  ∨ (∃ r, (step_diff.main k docs).2 = Except.ok r)
  ∨ (∃ m, (step_diff.main k docs).2 =
      Except.error (RunError.comparison m)) := by
  simp only [step_diff.main]
  split
  · exact Or.inl rfl
  · split
    · split
      · exact Or.inl rfl
      · split
        · exact Or.inr (Or.inl ⟨_, rfl⟩)
        · exact Or.inr (Or.inr ⟨_, rfl⟩)
    · exact Or.inl rfl

/-- Case shape of the beta variant's `main`, as for the step variant. -/
theorem main_beta_cases (k : Kernel) (docs : List Document) :
    (beta_diff.main k docs).1 = false
  ∨ (∃ r, (beta_diff.main k docs).2 = Except.ok r)
  ∨ (∃ m, (beta_diff.main k docs).2 =
      Except.error (RunError.comparison m)) := by
  simp only [beta_diff.main]
  split
  · exact Or.inl rfl
  · split
    · split
      · exact Or.inl rfl
      · split
        · exact Or.inr (Or.inl ⟨_, rfl⟩)
        · exact Or.inr (Or.inr ⟨_, rfl⟩)
    · exact Or.inl rfl

/-- C8: when either variant's run aborts with a configuration fault or an
empty-aggregate fault, the failure is the single error value surfaced by
`main`, and no output document was created before it (the artifact flag
is false). -/
theorem abort_leaves_no_artifact (k : Kernel) (docs docsB : List Document)
    (m mB : String)
    (hs : (step_diff.main k docs).2 = Except.error (RunError.config m) ∨
          (step_diff.main k docs).2 = Except.error (RunError.empty m))
    (hb : (beta_diff.main k docsB).2 = Except.error (RunError.config mB) ∨
          (beta_diff.main k docsB).2 = Except.error (RunError.empty mB)) :
    (step_diff.main k docs).1 = false
  ∧ (beta_diff.main k docsB).1 = false := by
  constructor
  · rcases main_step_cases k docs with h | ⟨r, h⟩ | ⟨m2, h⟩
    · exact h
    · rcases hs with hs | hs <;> rw [h] at hs <;> simp at hs
    · rcases hs with hs | hs <;> rw [h] at hs <;> simp at hs
  · rcases main_beta_cases k docsB with h | ⟨r, h⟩ | ⟨m2, h⟩
    · exact h
    · rcases hb with hb | hb <;> rw [h] at hb <;> simp at hb
    · rcases hb with hb | hb <;> rw [h] at hb <;> simp at hb

/-- C8 at a concrete input: with no documents open, both variants abort
with the configuration error and no output document exists. -/
theorem abort_leaves_no_artifact_witness :
    (step_diff.main K0 []).1 = false ∧ (beta_diff.main K0 []).1 = false :=
  abort_leaves_no_artifact K0 [] []
    "Apri almeno due documenti STEP per eseguire il confronto."
    "Apri almeno due documenti STEP per eseguire il confronto."
    (Or.inl rfl) (Or.inl rfl)

/-! C10. -/

/-- An invalid optional aggregate makes `validate_shape` raise. -/
theorem validate_shape_error_of_invalid (name : String) (x : Option Shape)
    (h : beta_diff.invalid_aggregate x = true) :
    ∃ m, beta_diff.validate_shape name x = Except.error m := by
  cases x with
  | none => exact ⟨_, rfl⟩
  | some s =>
    simp only [beta_diff.invalid_aggregate, Bool.or_eq_true,
      decide_eq_true_eq] at h
    rcases h with h | h
    · refine ⟨"Forma " ++ name ++ " è None o null", ?_⟩
      simp [beta_diff.validate_shape, h]
    · by_cases hn : s.isnull = true
      · refine ⟨"Forma " ++ name ++ " è None o null", ?_⟩
        simp [beta_diff.validate_shape, hn]
      · refine ⟨"Forma " ++ name ++ " troppo piccola", ?_⟩
        simp only [beta_diff.validate_shape]
        rw [if_neg hn, if_pos h]

/-- A valid optional aggregate passes `validate_shape` unchanged. -/
theorem validate_shape_ok_of_valid (name : String) (x : Option Shape)
    (h : beta_diff.invalid_aggregate x = false) :
    ∃ s, x = some s ∧ beta_diff.validate_shape name x = Except.ok s := by
  cases x with
  | none => simp [beta_diff.invalid_aggregate] at h
  | some s =>
    simp only [beta_diff.invalid_aggregate, Bool.or_eq_false_iff,
      decide_eq_false_iff_not] at h
    obtain ⟨h1, h2⟩ := h
    refine ⟨s, rfl, ?_⟩
    simp only [beta_diff.validate_shape]
    rw [if_neg (by simp [h1]), if_neg h2]

/-- C10: in the beta variant, if either input aggregate is `None`,
kernel-null, or of volume magnitude below the epsilon, then
`create_comparison_shapes` raises a `ValueError` — the same error under
every kernel, so no boolean operation contributes to the outcome — rather
than returning a `DiffShapes` with absent categories. -/
theorem beta_prevalidation_aborts (k k2 : Kernel)
    (vecchio nuovo : Option Shape)
    (h : (beta_diff.invalid_aggregate vecchio ||
          beta_diff.invalid_aggregate nuovo) = true) :
    isError (beta_diff.create_comparison_shapes k vecchio nuovo) = true
  ∧ beta_diff.create_comparison_shapes k vecchio nuovo =
      beta_diff.create_comparison_shapes k2 vecchio nuovo := by
  cases hv : beta_diff.invalid_aggregate vecchio with
  | true =>
    obtain ⟨m, hm⟩ := validate_shape_error_of_invalid "vecchio" vecchio hv
    constructor
    · simp [beta_diff.create_comparison_shapes, hm, isError]
    · simp [beta_diff.create_comparison_shapes, hm]
  | false =>
    rw [hv, Bool.false_or] at h
    obtain ⟨s, hx, hok⟩ := validate_shape_ok_of_valid "vecchio" vecchio hv
    obtain ⟨m, hm⟩ := validate_shape_error_of_invalid "nuovo" nuovo h
    constructor
    · simp [beta_diff.create_comparison_shapes, hok, hm, isError]
    · simp [beta_diff.create_comparison_shapes, hok, hm]

/-- C10 at a concrete input: a missing old aggregate aborts the beta
comparison identically under the echo kernel and the fatal kernel. -/
theorem beta_prevalidation_aborts_witness :
    (beta_diff.invalid_aggregate none ||
     beta_diff.invalid_aggregate (some sA)) = true
  ∧ isError (beta_diff.create_comparison_shapes K0 none (some sA)) = true
  ∧ beta_diff.create_comparison_shapes K0 none (some sA) =
      beta_diff.create_comparison_shapes K_fatal none (some sA) :=
  ⟨rfl, (beta_prevalidation_aborts K0 K_fatal none (some sA) rfl).1,
    (beta_prevalidation_aborts K0 K_fatal none (some sA) rfl).2⟩
